import Mathlib

/-!
Verification of the DocuMind retrieval-and-attribution pipeline.

Shallow embedding of the Python sources:
  * `services/citation_service.py`  (class `DocuMindCitationService`)
  * `services/reranker_service.py`  (class `DocuMindRerankerService`)
  * `services/chunking_service.py`  (class `DocuMindChunkingService`)
  * `services/api_service.py`       (class `DocuMindAPIService`)

Modelling conventions:
  * Python strings are `List Char`; Python dicts with a fixed key set are
    structures whose optional keys (read through `dict.get`) are `Option` fields.
  * Python floats are modelled as exact rationals (`ℚ`).  Every concrete float
    comparison a claim depends on was checked to be exact in double precision
    (in particular `1000 * 1.2 == 1200.0` and `1000 * 0.5 == 500.0`).
  * A Python exception raised by an external collaborator (HTTP call, embedder,
    vector store) is modelled by passing the outcome of the call as an explicit
    argument (`ExtCall` / `RemoteOutcome`); the `except` branches of the source
    become the corresponding `match` branches.
  * `str.lower()` is modelled by `Char.toLower` (exact on ASCII, the only
    alphabet exercised by the keyword lists and by concrete witnesses).
-/

namespace DocuMind

/-- Python strings are modelled as lists of characters. -/
abbrev Str := List Char

/-- Characters for which the Python `str.isspace()` / regex `\s` (Unicode mode on
`str`) hold: the six ASCII whitespace characters, the C1/latin additions and the
Unicode space separators. -/
def isPySpace (c : Char) : Bool :=
  c = ' ' ∨ c = '\t' ∨ c = '\n' ∨ c = '\x0d' ∨ c = '\x0b' ∨ c = '\x0c' ∨
  c = '\x1c' ∨ c = '\x1d' ∨ c = '\x1e' ∨ c = '\x1f' ∨ c = '\x85' ∨ c = '\xa0' ∨
  c = ' ' ∨ (' ' ≤ c ∧ c ≤ ' ') ∨ c = ' ' ∨ c = ' ' ∨
  c = ' ' ∨ c = ' ' ∨ c = '　'

/-- Python `str.strip()`: remove leading and trailing whitespace. -/
def pyStrip (s : Str) : Str :=
  ((s.dropWhile isPySpace).reverse.dropWhile isPySpace).reverse

/-- Python `str.lower()`, restricted to the ASCII case mapping. -/
def pyLower (s : Str) : Str := s.map Char.toLower

/-- Python `str.split()` (no argument): the maximal runs of non-whitespace
characters, in order; no empty fragments.  Implemented as a right fold carrying
the fragments found so far and whether the character just to the right was
part of a run. -/
def pySplitWs (s : Str) : List Str :=
  (s.foldr (fun c st =>
    if isPySpace c then (st.1, false)
    else match st.1, st.2 with
      | h :: t, true => ((c :: h) :: t, true)
      | acc, _ => (([c]) :: acc, true)) (([] : List Str), false)).1

/-- Python list slicing `l[:k]` for an `int` bound `k`: a nonnegative bound
takes the first `k` elements, a negative bound `-m` drops the last `m`
elements (empty when `m ≥ len(l)`). -/
def pySliceTo {α : Type} (l : List α) (k : Int) : List α :=
  if 0 ≤ k then l.take k.toNat else l.take (l.length - (-k).toNat)

/-- Python `int(digit-string)` on a nonempty run of ASCII digits. -/
def digitsToNat (ds : Str) : Nat :=
  ds.foldl (fun n c => n * 10 + (c.toNat - '0'.toNat)) 0

/-- Rendering of a natural number as its decimal digit characters, as produced
by Python string interpolation of an `int`. -/
def natStr (n : Nat) : Str := Nat.toDigits 10 n

/-- Outcome of a call to an external collaborator: either a returned value or a
raised exception carrying the message later formatted by `str(e)`. -/
inductive ExtCall (α : Type) where
  | ok (a : α)
  | raise (msg : Str)
deriving DecidableEq

/-! ## Citation service (`services/citation_service.py`)

`DocuMindCitationService` with the citation pattern `\[(\d+)\]` and
`max_citations = 10`. -/

/-- The `Citation` dataclass of `citation_service.py` (field `section` is named
`sect` because `section` is a reserved word in Lean). -/
structure Citation where
  id : Nat
  text : Str
  source : Str
  title : Str
  sect : Str
  position : Str
  chunk_id : Str
  score : ℚ
deriving DecidableEq

/-- A candidate/source-chunk dictionary as it flows through the query pipeline:
search results, reranker documents and the `source_chunks` consumed by the
citation service are the same dicts.  Every key that the services read through
`dict.get` is an `Option` field. -/
structure DocDict where
  text : Option Str := none
  source : Option Str := none
  title : Option Str := none
  sect : Option Str := none
  citation_position : Option Str := none
  chunk_id : Option Str := none
  score : Option ℚ := none
  rerank_score : Option ℚ := none
  rerank_provider : Option Str := none
deriving DecidableEq

def max_citations : Nat := 10

/-- The body of the `enumerate(source_chunks[:max_citations])` loop of
`_create_citations`: the citation built from the chunk at index `i`. -/
def mkCitation (i : Nat) (chunk : DocDict) : Citation :=
  { id := i + 1
    text := chunk.text.getD []
    source := chunk.source.getD ("Unknown Source".toList)
    title := chunk.title.getD ("Untitled Document".toList)
    sect := chunk.sect.getD ("Section ".toList ++ natStr (i + 1))
    position := chunk.citation_position.getD ("Chunk ".toList ++ natStr (i + 1))
    chunk_id := chunk.chunk_id.getD ("chunk_".toList ++ natStr i)
    score := chunk.rerank_score.getD (chunk.score.getD 0) }

/-- The `for i, chunk in enumerate(...)` loop of `_create_citations`. -/
def createLoop (i : Nat) : List DocDict → List Citation
  | [] => []
  | chunk :: rest => mkCitation i chunk :: createLoop (i + 1) rest

/-- Embeds `DocuMindCitationService._create_citations`. -/
def create_citations (source_chunks : List DocDict) : List Citation :=
  createLoop 0 (source_chunks.take max_citations)

/-- Is `c` one of the sentence-ending characters of the class `[.!?]`? -/
def isSentEnd (c : Char) : Bool := c = '.' ∨ c = '!' ∨ c = '?'

/-- Python `re.split` on the pattern `[.!?]+`: fragments between maximal runs of
sentence enders, empty fragments included (as `re.split` produces them).
Right fold carrying the fragments and whether the character to the right was a
sentence ender (a run of enders yields a single break). -/
def reSplitSentEnders (text : Str) : List Str :=
  (text.foldr (fun c st =>
    if isSentEnd c then
      if st.2 then st else (([] : Str) :: st.1, true)
    else match st.1 with
      | h :: t => ((c :: h) :: t, false)
      | [] => ([[c]], false)) ([([] : Str)], false)).1

/-- Embeds `DocuMindCitationService._split_into_sentences`. -/
def split_into_sentences (text : Str) : List Str :=
  ((reSplitSentEnders text).map pyStrip).filter (fun s => s ≠ [])

/-- Does `needle` occur at the start of `hay`? -/
def startsWith : Str → Str → Bool
  | [], _ => true
  | _ :: _, [] => false
  | a :: as, b :: bs => a = b ∧ startsWith as bs

/-- Embeds the Python substring containment `needle in hay`. -/
def isSubstring (needle hay : Str) : Bool :=
  (List.range (hay.length + 1)).any (fun i => startsWith needle (hay.drop i))

/-- The `citation_keywords` list of `_should_cite_sentence`. -/
def citation_keywords : List Str :=
  [("according to".toList), ("states".toList), ("indicates".toList),
   ("shows".toList), ("reveals".toList), ("demonstrates".toList),
   ("confirms".toList), ("suggests".toList), ("implies".toList),
   ("based on".toList), ("as mentioned".toList), ("as stated".toList),
   ("the document".toList), ("the source".toList), ("research".toList),
   ("study".toList), ("data".toList), ("evidence".toList),
   ("findings".toList)]

/-- Embeds `DocuMindCitationService._should_cite_sentence` (the `total_sentences`
argument is passed by the caller but never read, as in the source). -/
def should_cite_sentence (sentence : Str) (sentence_index : Nat)
    (_total_sentences : Nat) : Bool :=
  if sentence_index = 0 then true
  else if citation_keywords.any (fun kw => isSubstring kw (pyLower sentence)) then true
  else if sentence.any Char.isDigit then true
  else if sentence_index % 3 = 0 then true
  else false

/-- The `for i, sentence in enumerate(sentences)` loop of `_insert_citations`:
`i` is the sentence index, `citation_count` the citations consumed so far,
`citations_len = len(citations)` and `total` the sentence count. -/
def insertLoop (citations_len total : Nat) : Nat → Nat → List Str → List Str
  | _, _, [] => []
  | i, citation_count, sentence :: rest =>
    if should_cite_sentence sentence i total ∧ citation_count < citations_len then
      (sentence ++ (" [".toList ++ natStr (citation_count + 1) ++ "]".toList))
        :: insertLoop citations_len total (i + 1) (citation_count + 1) rest
    else
      sentence :: insertLoop citations_len total (i + 1) citation_count rest

/-- Embeds `DocuMindCitationService._insert_citations`.  The source consumes the
citation list only through `len(citations)` and its truthiness. -/
def insert_citations (answer : Str) (citations : List Citation) : Str :=
  if citations.length = 0 then answer
  else
    let sentences := split_into_sentences answer
    List.intercalate (" ".toList)
      (insertLoop citations.length sentences.length 0 0 sentences)

/-- Embeds `DocuMindCitationService.add_citations_to_answer`. -/
def add_citations_to_answer (answer : Str) (source_chunks : List DocDict) :
    Str × List Citation :=
  if source_chunks = [] then (answer, [])
  else
    let citations := create_citations source_chunks
    (insert_citations answer citations, citations)

/-- The scan performed by `re.findall` of the pattern `\[(\d+)\]`: at each position a
match requires `[`, a nonempty maximal digit run, then `]`; scanning resumes
after the closing bracket, or at the next character when no match starts
here.  `fuel` only makes the recursion structural: every step strictly
shortens the text, so the top-level fuel `text.length + 1` is never
exhausted. -/
def findallAux : Nat → Str → List Nat
  | 0, _ => []
  | _, [] => []
  | fuel + 1, c :: rest =>
    let ds := rest.takeWhile Char.isDigit
    let rest2 := rest.dropWhile Char.isDigit
    if c = '[' ∧ ds ≠ [] ∧ rest2.head? = some ']' then
      digitsToNat ds :: findallAux fuel rest2.tail
    else
      findallAux fuel rest

/-- Embeds `DocuMindCitationService.extract_citations_from_text`. -/
def extract_citations_from_text (text : Str) : List Nat :=
  findallAux (text.length + 1) text

/-- The dictionary returned by `validate_citations` (float division is
modelled as exact division in `ℚ`). -/
structure CitationValidation where
  total_citations : Nat
  citations_in_text : Nat
  missing_citations : List Nat
  unused_citations : List Nat
  citation_coverage : ℚ
  is_valid : Bool
deriving DecidableEq

/-- Embeds `DocuMindCitationService.validate_citations`. -/
def validate_citations (answer : Str) (citations : List Citation) :
    CitationValidation :=
  let citation_ids_in_text := extract_citations_from_text answer
  let available_citation_ids := citations.map (fun c => c.id)
  let missing := citation_ids_in_text.filter
    (fun cid => ¬ available_citation_ids.contains cid)
  let unused := available_citation_ids.filter
    (fun cid => ¬ citation_ids_in_text.contains cid)
  { total_citations := citations.length
    citations_in_text := citation_ids_in_text.length
    missing_citations := missing
    unused_citations := unused
    citation_coverage :=
      if citations.length = 0 then 0
      else (citation_ids_in_text.length : ℚ) / (citations.length : ℚ)
    is_valid := missing.length = 0 }

/-! ## difflib (`difflib.SequenceMatcher`, used by `_fallback_rerank`)

A faithful embedding of `SequenceMatcher(None, a, b).ratio()` from the CPython
`difflib` module, specialised to sequences of characters with `isjunk=None` and the
default `autojunk=True`. -/

/-- Positions (ascending) of character `c` in `b` — the `b2j` table entries
built by `SequenceMatcher.__chain_b` before junk pruning. -/
def positionsOf (c : Char) (b : Str) : List Nat :=
  (b.enum.filter (fun p => p.2 = c)).map (fun p => p.1)

/-- The `autojunk` heuristic of `__chain_b`: for `b` of length at least 200,
characters occurring more than `len(b) // 100 + 1` times are junk. -/
def isPopularJunk (b : Str) (c : Char) : Bool :=
  200 ≤ b.length ∧ b.length / 100 + 1 < b.count c

/-- The pruned `b2j` mapping: positions of `c` in `b`, empty for junk. -/
def b2j (b : Str) (c : Char) : List Nat :=
  if isPopularJunk b c then [] else positionsOf c b

/-- One row of the dynamic program of `find_longest_match`: iterate over the
ascending positions `js` of `a[i]` in `b`, skipping `j < blo` (`continue`),
stopping at `j ≥ bhi` (`break`), building the new run-length table `newj2len`
and updating the best block `(besti, bestj, bestsize)` whenever a strictly
longer run appears. -/
def flmRow (j2len : List (Nat × Nat)) (blo bhi i : Nat) :
    List Nat → List (Nat × Nat) → Nat × Nat × Nat →
    List (Nat × Nat) × (Nat × Nat × Nat)
  | [], newj2len, best => (newj2len, best)
  | j :: js, newj2len, best =>
    if j < blo then flmRow j2len blo bhi i js newj2len best
    else if bhi ≤ j then (newj2len, best)
    else
      let k := (if j = 0 then 0 else (j2len.lookup (j - 1)).getD 0) + 1
      let best2 := if best.2.2 < k then (i + 1 - k, j + 1 - k, k) else best
      flmRow j2len blo bhi i js ((j, k) :: newj2len) best2

/-- The outer `for i in range(alo, ahi)` loop of `find_longest_match`,
threading the run-length table from row to row. -/
def flmRows (a b : Str) (blo bhi : Nat) :
    List Nat → List (Nat × Nat) → Nat × Nat × Nat → Nat × Nat × Nat
  | [], _, best => best
  | i :: is, j2len, best =>
    let row := flmRow j2len blo bhi i (b2j b ((a.get? i).getD ' ')) [] best
    flmRows a b blo bhi is row.1 row.2

/-- The downward extension `while` loops of `find_longest_match`: extend the
best block over adjacent equal characters whose junk status is `wantJunk`.
Structural recursion on `besti`, which the loop decrements while positive. -/
def extendLower (a b : Str) (bj : Char → Bool) (wantJunk : Bool) (alo blo : Nat) :
    Nat → Nat → Nat → Nat × Nat × Nat
  | 0, bestj, bestsize => (0, bestj, bestsize)
  | bi + 1, bestj, bestsize =>
    if alo < bi + 1 ∧ blo < bestj then
      match a.get? bi, b.get? (bestj - 1) with
      | some ca, some cb =>
        if bj cb = wantJunk ∧ ca = cb then
          extendLower a b bj wantJunk alo blo bi (bestj - 1) (bestsize + 1)
        else (bi + 1, bestj, bestsize)
      | _, _ => (bi + 1, bestj, bestsize)
    else (bi + 1, bestj, bestsize)

/-- The upward extension `while` loops of `find_longest_match`.  The loop
increments `bestsize` while `besti + bestsize < ahi`, so it runs at most
`ahi` times and the fuel `ahi` supplied by the caller is never exhausted. -/
def extendUpper (a b : Str) (bj : Char → Bool) (wantJunk : Bool) (ahi bhi : Nat) :
    Nat → Nat → Nat → Nat → Nat × Nat × Nat
  | 0, besti, bestj, bestsize => (besti, bestj, bestsize)
  | fuel + 1, besti, bestj, bestsize =>
    if besti + bestsize < ahi ∧ bestj + bestsize < bhi then
      match a.get? (besti + bestsize), b.get? (bestj + bestsize) with
      | some ca, some cb =>
        if bj cb = wantJunk ∧ ca = cb then
          extendUpper a b bj wantJunk ahi bhi fuel besti bestj (bestsize + 1)
        else (besti, bestj, bestsize)
      | _, _ => (besti, bestj, bestsize)
    else (besti, bestj, bestsize)

/-- Embeds `SequenceMatcher.find_longest_match` on the window
`[alo, ahi) × [blo, bhi)`: the dynamic program followed by the four junk-aware
extension loops (non-junk, then junk, lower and upper each). -/
def find_longest_match (a b : Str) (alo ahi blo bhi : Nat) : Nat × Nat × Nat :=
  let bj := isPopularJunk b
  let p1 := flmRows a b blo bhi (List.range' alo (ahi - alo)) [] (alo, blo, 0)
  let p2 := extendLower a b bj false alo blo p1.1 p1.2.1 p1.2.2
  let p3 := extendUpper a b bj false ahi bhi ahi p2.1 p2.2.1 p2.2.2
  let p4 := extendLower a b bj true alo blo p3.1 p3.2.1 p3.2.2
  extendUpper a b bj true ahi bhi ahi p4.1 p4.2.1 p4.2.2

/-- Total size of the matching blocks that `get_matching_blocks` collects on a
window: find the longest match, then recurse into the two flanking windows
(difflib drives this with an explicit queue; the collected blocks, hence the
total, are identical).  `fuel` bounds the recursion depth; every recursive
call shrinks its window by at least the block size ≥ 1, so the top-level fuel
`a.length + b.length + 1` is always sufficient. -/
def matchingTotal (a b : Str) : Nat → Nat → Nat → Nat → Nat → Nat
  | 0, _, _, _, _ => 0
  | fuel + 1, alo, ahi, blo, bhi =>
    let m := find_longest_match a b alo ahi blo bhi
    if m.2.2 = 0 then 0
    else
      m.2.2 + matchingTotal a b fuel alo m.1 blo m.2.1 +
        matchingTotal a b fuel (m.1 + m.2.2) ahi (m.2.1 + m.2.2) bhi

/-- Embeds `difflib.SequenceMatcher(None, a, b).ratio()` = `2 * M / T` where `M` is
the total matching-block size and `T` the combined length (`1.0` when both
are empty); float arithmetic modelled exactly in `ℚ`. -/
def ratioOf (a b : Str) : ℚ :=
  let total := matchingTotal a b (a.length + b.length + 1) 0 a.length 0 b.length
  if 0 < a.length + b.length then (2 * total : ℚ) / ((a.length + b.length : Nat) : ℚ)
  else 1

/-! ## Reranker service (`services/reranker_service.py`)

`DocuMindRerankerService.rerank` awaits one provider-specific remote call
inside a `try` block; any exception (network error, non-2xx status raised by
`raise_for_status`, malformed payload, missing API key, unsupported provider
name) lands in the `except` branch, which calls `_fallback_rerank`.  The
outcome of the remote call is passed as an explicit `RemoteOutcome`
argument. -/

/-- The parsed `result.get("results", [])` items of a successful provider
response: `(index, relevance_score)` pairs.  `item["index"]` is a Python
`int` parsed from JSON, so it can be negative — the guard
`doc_index < len(documents)` in the source does not exclude that. -/
abbrev RemoteResults := List (Int × ℚ)

/-- Python list indexing `l[i]` for an `int` index: a nonnegative index reads
from the front, a negative index `-m` reads `l[len(l) - m]`; `none` models the
`IndexError` raised when the index is out of range on either side. -/
def pyGetItem {α : Type} (l : List α) (i : Int) : Option α :=
  if 0 ≤ i then l.get? i.toNat
  else if (-i).toNat ≤ l.length then l.get? (l.length - (-i).toNat)
  else none

/-- Outcome of the provider-specific remote rerank call. -/
inductive RemoteOutcome where
  | failure
  | ok (results : RemoteResults)
deriving DecidableEq

/-- The scoring step of `_fallback_rerank` for one document: `doc.copy()` with
`rerank_score` set to the difflib ratio of the lowercased query against the
lowercased `doc.get("text", "")` and `rerank_provider` set to `"fallback"`. -/
def fallbackScore (query_lower : Str) (doc : DocDict) : DocDict :=
  { doc with
    rerank_score := some (ratioOf query_lower (pyLower (doc.text.getD [])))
    rerank_provider := some ("fallback".toList) }

/-- The sort key of `_fallback_rerank`: `x["rerank_score"]` (always set by the
scoring step that precedes the sort). -/
def rrKey (d : DocDict) : ℚ := d.rerank_score.getD 0

/-- Insert `x` in front of the first element whose key is at most the key of `x`. -/
def insertDesc (x : DocDict) : List DocDict → List DocDict
  | [] => [x]
  | y :: ys => if rrKey y ≤ rrKey x then x :: y :: ys else y :: insertDesc x ys

/-- Stable sort by `rrKey` descending: the unique input-order-preserving
descending arrangement, which is exactly what the stable Python
`list.sort(key=lambda x: x["rerank_score"], reverse=True)` produces. -/
def sortDesc : List DocDict → List DocDict
  | [] => []
  | x :: xs => insertDesc x (sortDesc xs)

/-- Embeds `DocuMindRerankerService._fallback_rerank`. -/
def fallback_rerank (query : Str) (documents : List DocDict) (top_k : Int) :
    List DocDict :=
  let query_lower := pyLower query
  let scored_docs := documents.map (fallbackScore query_lower)
  pySliceTo (sortDesc scored_docs) top_k

/-- The response-processing loop shared verbatim by `_rerank_cohere`,
`_rerank_jina`, `_rerank_voyage` and `_rerank_bge`: each result item whose
index passes `doc_index < len(documents)` contributes
`documents[doc_index].copy()` with `rerank_score` and `rerank_provider` set.
The guard accepts negative indices, which Python list indexing resolves by
wraparound; an index below `-len(documents)` makes `documents[doc_index]`
raise `IndexError` (the `none` outcome), which escapes the processing loop. -/
def processLoop (provider : Str) (documents : List DocDict) :
    RemoteResults → Option (List DocDict)
  | [] => some []
  | item :: rest =>
    if item.1 < (documents.length : Int) then
      match pyGetItem documents item.1 with
      | none => none
      | some doc =>
        (processLoop provider documents rest).map
          (fun tail =>
            { doc with rerank_score := some item.2,
                       rerank_provider := some provider } :: tail)
    else processLoop provider documents rest

/-- The full body of one `_rerank_*` helper after a successful HTTP call: run
the processing loop, then slice `[:top_k]`; `none` is the `IndexError` raised
inside the loop, which propagates out of the helper into `rerank`'s
`except` branch.  (The request sent to the provider asks for
`min(top_k, len(documents))` results; whatever the provider actually returned
is the `results` argument.) -/
def processRemoteResults (provider : Str) (documents : List DocDict)
    (results : RemoteResults) (top_k : Int) : Option (List DocDict) :=
  (processLoop provider documents results).map (fun l => pySliceTo l top_k)

/-- Embeds `DocuMindRerankerService.rerank`.  Every exception inside the
`try` block falls back — including an `IndexError` raised while processing a
successful response whose index wraps below `-len(documents)`. -/
def rerank (provider : Str) (query : Str) (documents : List DocDict)
    (top_k : Int) (remote : RemoteOutcome) : List DocDict :=
  if documents = [] ∨ query = [] then []
  else
    match remote with
    | .ok results =>
      match processRemoteResults provider documents results top_k with
      | some l => l
      | none => fallback_rerank query documents top_k
    | .failure => fallback_rerank query documents top_k

/-! ## Chunking service (`services/chunking_service.py`)

`DocuMindChunkingService` with the default configuration of the module-level
singleton: `chunk_size = 1000`, `chunk_overlap = 150`, default separators. -/

def chunk_size : Nat := 1000
def chunk_overlap : Nat := 150

/-- Embeds `re.sub` of `\s+` with a single space: collapse every maximal run of whitespace
into a single space.  Right fold carrying the processed suffix and whether the
character to the right was inside a whitespace run. -/
def collapseWs (s : Str) : Str :=
  (s.foldr (fun c st =>
    if isPySpace c then (if st.2 then st else (' ' :: st.1, true))
    else (c :: st.1, false)) (([] : Str), false)).1

/-- The character class `[\x00-\x08\x0b\x0c\x0e-\x1f\x7f-\x9f]` removed by
`_clean_content`. -/
def isStrippedCtrl (c : Char) : Bool :=
  c ≤ '\x08' ∨ c = '\x0b' ∨ c = '\x0c' ∨ ('\x0e' ≤ c ∧ c ≤ '\x1f') ∨
  ('\x7f' ≤ c ∧ c ≤ '\x9f')

/-- Embeds `re.sub` replacing CRLF with LF. -/
def crlf2lf : Str → Str
  | '\x0d' :: '\n' :: rest => '\n' :: crlf2lf rest
  | c :: rest => c :: crlf2lf rest
  | [] => []

/-- Embeds `DocuMindChunkingService._clean_content`: collapse whitespace, strip the
control-character class, normalise CR/LF, strip. -/
def clean_content (content : Str) : Str :=
  pyStrip

    ((((collapseWs content).filter (fun c => ¬ isStrippedCtrl c))
      |> crlf2lf
      |> List.map (fun c => if c = '\x0d' then '\n' else c)))

/-- Modelled from the spec: the text segmentation itself is delegated to
`langchain.text_splitter.RecursiveCharacterTextSplitter`, which is not part of
the sources of this repository.  Spec §4.1 specifies segments of at most
`chunk_size` characters where adjacent output segments overlap by
`chunk_overlap` characters (150) drawn from the tail of the previous segment;
the separator-priority refinement only moves boundaries and no claim under
verification depends on it, so segments are modelled as fixed-stride slices
realising exactly that overlap contract. -/
def splitAux : Nat → Str → List Str
  | 0, _ => []
  | fuel + 1, s =>
    if s.length ≤ chunk_size then [s]
    else s.take chunk_size :: splitAux fuel (s.drop (chunk_size - chunk_overlap))

def split_text (s : Str) : List Str := splitAux (s.length + 1) s

def isUpperAZ (c : Char) : Bool := 'A' ≤ c ∧ c ≤ 'Z'
def isLowerAZ (c : Char) : Bool := 'a' ≤ c ∧ c ≤ 'z'

/-- Embeds `re.match` of the markdown-header pattern `^#+\s*(.+)$` on an already stripped line: the captured
group under greedy matching with backtracking.  When characters follow the
`#`-run the capture is everything after the whitespace run (nonempty, since a
stripped line cannot end in whitespace); when the line is `#`-only of length
at least two, backtracking hands the last `#` to the capture. -/
def markdownCapture (line : Str) : Option Str :=
  match line with
  | '#' :: _ =>
    let s := line.dropWhile (fun c => c = '#')
    if s ≠ [] then some (s.dropWhile isPySpace)
    else if 2 ≤ line.length then some ("#".toList)
    else none
  | _ => none

/-- Embeds `re.match` of the ALL-CAPS pattern `^[A-Z][A-Z\s]+$` on a stripped line. -/
def allCapsMatches (line : Str) : Bool :=
  match line with
  | c :: rest => isUpperAZ c ∧ rest ≠ [] ∧ rest.all (fun d => isUpperAZ d ∨ isPySpace d)
  | [] => false

/-- Embeds `re.match` of the numbered-section pattern `^\d+\.\s*(.+)$` on a stripped line: the capture. -/
def numberedCapture (line : Str) : Option Str :=
  if (line.takeWhile Char.isDigit) ≠ [] then
    match line.dropWhile Char.isDigit with
    | '.' :: s2 => if s2 ≠ [] then some (s2.dropWhile isPySpace) else none
    | _ => none
  else none

/-- Embeds `re.match` of the title-case-colon pattern `^[A-Z][a-z]+.*:$` on a stripped line. -/
def titleColonMatches (line : Str) : Bool :=
  match line with
  | c :: d :: _ :: _ =>
    isUpperAZ c ∧ isLowerAZ d ∧ line.getLast? = some ':'
  | _ => false

/-- The inner `for pattern in section_patterns` loop of `_extract_section` for
one stripped, nonempty line.  The ALL-CAPS and title-case-colon patterns have
no capture group, so a match there makes `match.group(1)` raise
`IndexError: no such group` — modelled as the `.error` case.  `none` means no
pattern matched and the scan moves to the next line. -/
def sectionOfLine (line : Str) : Option (Except Str Str) :=
  match markdownCapture line with
  | some cap => some (Except.ok (pyStrip cap))
  | none =>
    if allCapsMatches line then some (Except.error ("no such group".toList))
    else match numberedCapture line with
      | some cap => some (Except.ok (pyStrip cap))
      | none =>
        if titleColonMatches line then some (Except.error ("no such group".toList))
        else none

/-- Python `chunk.split('\n')`: split at every newline, keeping empties. -/
def splitOnNl (s : Str) : List Str :=
  s.foldr (fun c st =>
    if c = '\n' then ([] : Str) :: st
    else match st with
      | h :: t => (c :: h) :: t
      | [] => [[c]]) [([] : Str)]

/-- The `for line in lines[:3]` loop of `_extract_section`. -/
def extractLinesLoop : List Str → Option (Except Str Str)
  | [] => none
  | line :: rest =>
    let l := pyStrip line
    if l = [] then extractLinesLoop rest
    else
      match sectionOfLine l with
      | some r => some r
      | none => extractLinesLoop rest

/-- Embeds `DocuMindChunkingService._extract_section`. -/
def extract_section (chunk : Str) (chunk_index : Nat) : Except Str Str :=
  match extractLinesLoop ((splitOnNl chunk).take 3) with
  | some r => r
  | none => Except.ok ("Section ".toList ++ natStr (chunk_index + 1))

/-- One anchored attempt of `re.search` of `^\s*[-*•]\s` in MULTILINE mode:
after the whitespace run a bullet character followed by whitespace. -/
def bulletAfterWs (s : Str) : Bool :=
  match s.dropWhile isPySpace with
  | c :: d :: _ => (c = '-' ∨ c = '*' ∨ c = '•') ∧ isPySpace d
  | _ => false

/-- The `has_lists` flag: the multiline search anchors at position 0 and after
every newline. -/
def hasListsCheck (t : Str) : Bool :=
  (List.range (t.length + 1)).any (fun i =>
    (i = 0 ∨ t.get? (i - 1) = some '\n') ∧ bulletAfterWs (t.drop i))

/-- The accented-Latin character class of `_detect_language`, plus the
uppercase forms its `re.IGNORECASE` flag folds onto it. -/
def nonEnglishLower : Str := "àáâãäåæçèéêëìíîïðñòóôõöøùúûüýþÿ".toList
def nonEnglishUpper : Str := "ÀÁÂÃÄÅÆÇÈÉÊËÌÍÎÏÐÑÒÓÔÕÖØÙÚÛÜÝÞŸ".toList

/-- Embeds `DocuMindChunkingService._detect_language`. -/
def detect_language (text : Str) : Str :=
  if text.any (fun c => nonEnglishLower.contains c ∨ nonEnglishUpper.contains c) then
    "non-english".toList
  else if text.any (fun c => '一' ≤ c ∧ c ≤ '龯') then "chinese".toList
  else if text.any (fun c => 'あ' ≤ c ∧ c ≤ 'ん') then "japanese".toList
  else if text.any (fun c => '가' ≤ c ∧ c ≤ '힣') then "korean".toList
  else "english".toList

/-- A chunk-metadata dictionary as built by `_create_chunk_metadata`.  The
entries `chunk_size` / `chunk_overlap` / `overlap_percentage` (configuration
constants echoed into every chunk) and `citation_source` / `citation_title` /
`citation_section` (verbatim copies of `source` / `title` / `section`) are
omitted; no claim consumes them.  Field `section` is named `sect` (`section`
is reserved in Lean). -/
structure Chunk where
  chunk_id : Str
  doc_id : Str
  position : Nat
  chunk_index : Nat
  total_chunks : Nat
  source : Str
  title : Str
  sect : Str
  text : Str
  word_count : Nat
  char_count : Nat
  estimated_tokens : Nat
  citation_position : Str
  has_numbers : Bool
  has_questions : Bool
  has_lists : Bool
  language : Str
deriving DecidableEq

/-- Embeds `DocuMindChunkingService._create_chunk_metadata`; propagates the
`IndexError` that `_extract_section` can raise. -/
def create_chunk_metadata (chunk : Str) (chunk_index total_chunks : Nat)
    (source title doc_id : Str) (position : Nat) : Except Str Chunk := do
  let sect ← extract_section chunk chunk_index
  pure
    { chunk_id := doc_id ++ "_chunk_".toList ++ natStr chunk_index
      doc_id := doc_id
      position := position
      chunk_index := chunk_index
      total_chunks := total_chunks
      source := source
      title := if title = [] then "Untitled Document".toList else title
      sect := sect
      text := chunk
      word_count := (pySplitWs chunk).length
      char_count := chunk.length
      estimated_tokens := chunk.length / 4
      citation_position :=
        "Chunk ".toList ++ natStr (chunk_index + 1) ++ " of ".toList ++ natStr total_chunks
      has_numbers := chunk.any Char.isDigit
      has_questions := (pyStrip chunk).getLast? = some '?'
      has_lists := hasListsCheck chunk
      language := detect_language chunk }

/-- The `for i, chunk in enumerate(chunks)` metadata loop of
`chunk_document`. -/
def chunkLoop (total : Nat) (source title doc_id : Str) :
    Nat → List Str → Except Str (List Chunk)
  | _, [] => Except.ok []
  | i, chunk :: rest => do
    let m ← create_chunk_metadata chunk i total source title doc_id i
    let ms ← chunkLoop total source title doc_id (i + 1) rest
    pure (m :: ms)

/-- Embeds `DocuMindChunkingService.chunk_document`.  The orchestrator always passes
the freshly generated `doc_id`, so the `doc_id=None` content-hash fallback of
the source is never exercised and `doc_id` is a required argument here.  The
`.error` case is the `IndexError` escaping from section extraction. -/
def chunk_document (content source title doc_id : Str) : Except Str (List Chunk) :=
  if content = [] ∨ pyStrip content = [] then Except.ok []
  else
    let cleaned := clean_content content
    let chunks := split_text cleaned
    chunkLoop chunks.length source title doc_id 0 chunks

/-- A chunk dictionary as read by `validate_chunks` through `dict.get`. -/
structure ChunkDict where
  estimated_tokens : Option Nat := none
  text : Option Str := none
deriving DecidableEq

/-- Python `text.strip().endswith((".", "!", "?", "\n"))`. -/
def endsWithSentencePunct (t : Str) : Bool :=
  t.getLast? = some '.' ∨ t.getLast? = some '!' ∨ t.getLast? = some '?' ∨
  t.getLast? = some '\n'

/-- One chunk of the `oversized_chunks` comprehension:
`estimated_tokens > chunk_size * 1.2`.  For `chunk_size = 1000` the double
product `1000 * 1.2` is exactly `1200.0`, so the comparison is exact. -/
def oversizedPred (c : ChunkDict) : Bool :=
  (1200 : ℚ) < ((c.estimated_tokens.getD 0 : Nat) : ℚ)

/-- One chunk of the `undersized_chunks` comprehension (`1000 * 0.5 = 500.0`
exactly). -/
def undersizedPred (c : ChunkDict) : Bool :=
  ((c.estimated_tokens.getD 0 : Nat) : ℚ) < (500 : ℚ)

/-- One chunk of the broken-sentence loop: nonempty text whose stripped form
does not end in `.`, `!`, `?` or a newline (stripping removes any trailing
newline first, so the newline alternative of `endswith` can never hold). -/
def brokenSentencePred (c : ChunkDict) : Bool :=
  (c.text.getD []) ≠ [] ∧ ¬ endsWithSentencePunct (pyStrip (c.text.getD []))

/-- The statistics dictionary of `validate_chunks`.  The source presents the
average through `round(avg, 2)`; it is kept exact here (no claim reads it). -/
structure ChunkValidationStats where
  total_chunks : Nat
  total_estimated_tokens : Nat
  average_tokens_per_chunk : ℚ
  oversized_chunks : Nat
  undersized_chunks : Nat
  broken_sentences : Nat
  chunk_size_compliance : Bool
  sentence_boundary_compliance : Bool
  overall_quality : Str
deriving DecidableEq

/-- Embeds `validate_chunks` returns either the `{"error": ...}` dictionary or the
statistics dictionary. -/
inductive ChunkValidationOut where
  | error (msg : Str)
  | stats (s : ChunkValidationStats)
deriving DecidableEq

/-- Embeds `DocuMindChunkingService.validate_chunks` (default `chunk_size = 1000`). -/
def validate_chunks (chunks : List ChunkDict) : ChunkValidationOut :=
  if chunks = [] then ChunkValidationOut.error ("No chunks to validate".toList)
  else
    let total_chunks := chunks.length
    let total_tokens := (chunks.map (fun c => c.estimated_tokens.getD 0)).sum
    let oversized := (chunks.filter oversizedPred).length
    let undersized := (chunks.filter undersizedPred).length
    let broken := (chunks.filter brokenSentencePred).length
    ChunkValidationOut.stats
      { total_chunks := total_chunks
        total_estimated_tokens := total_tokens
        average_tokens_per_chunk :=
          if 0 < total_chunks then (total_tokens : ℚ) / (total_chunks : ℚ) else 0
        oversized_chunks := oversized
        undersized_chunks := undersized
        broken_sentences := broken
        chunk_size_compliance := oversized = 0
        sentence_boundary_compliance := broken = 0
        overall_quality :=
          if oversized = 0 ∧ broken = 0 then "good".toList
          else "needs_improvement".toList }

/-! ## Pipeline orchestrator (`services/api_service.py`)

`DocuMindAPIService` owns the in-memory `documents` and `document_chunks`
tables (insertion-ordered dicts, modelled as association lists with in-place
update).  The external collaborators — Gemini embedder, cloud vector store,
Gemini chat — are behind `await` calls; their outcomes are explicit
arguments.  `uuid.uuid4()` and `time.time()` are likewise parameters. -/

/-- An embedding vector (opaque to the orchestrator logic). -/
def EmbedVec := List ℚ
deriving DecidableEq

/-- Python dict assignment `d[k] = v`: replace in place, else append. -/
def dictSet {V : Type} : List (Str × V) → Str → V → List (Str × V)
  | [], k, v => [(k, v)]
  | (k0, v0) :: rest, k, v =>
    if k0 = k then (k, v) :: rest else (k0, v0) :: dictSet rest k v

/-- The per-document record stored in `self.documents`. -/
structure DocRecord where
  id : Str
  content : Str
  source : Str
  title : Str
  doc_type : Str
  upload_time : ℚ
  word_count : Nat
  char_count : Nat
deriving DecidableEq

structure OrchestratorState where
  documents : List (Str × DocRecord)
  document_chunks : List (Str × List Chunk)
deriving DecidableEq

/-- The dictionary `upload_document` returns (keys absent from a branch are
`none`). -/
structure UploadResult where
  success : Bool
  error : Option Str := none
  document_id : Option Str := none
  chunks_created : Option Nat := none
  validation_stats : Option ChunkValidationOut := none
deriving DecidableEq

/-- The projection of a chunker `Chunk` to the keys `validate_chunks` reads. -/
def chunkAsDict (c : Chunk) : ChunkDict :=
  { estimated_tokens := some c.estimated_tokens, text := some c.text }

/-- Embeds `DocuMindAPIService.upload_document`.  `doc_id` is the fresh
`str(uuid.uuid4())`, `now` is `time.time()`.  Note the source stores the
document record into `self.documents` *before* chunking and never removes it:
every failure branch after that point leaves the record (and, once stored,
the chunk list) in place. -/
def upload_document (st : OrchestratorState) (content source title doc_type : Str)
    (doc_id : Str) (now : ℚ) (embedOutcome : ExtCall (List EmbedVec))
    (upsertOutcome : ExtCall Bool) : UploadResult × OrchestratorState :=
  let docRec : DocRecord :=
    { id := doc_id, content := content, source := source, title := title
      doc_type := doc_type, upload_time := now
      word_count := (pySplitWs content).length, char_count := content.length }
  let st1 : OrchestratorState := { st with documents := dictSet st.documents doc_id docRec }
  match chunk_document content source title doc_id with
  | Except.error e =>
    ({ success := false, error := some e }, st1)
  | Except.ok chunks =>
    if chunks = [] then
      ({ success := false
         error := some ("Failed to create chunks from document".toList) }, st1)
    else
      let st2 : OrchestratorState :=
        { st1 with document_chunks := dictSet st1.document_chunks doc_id chunks }
      match embedOutcome with
      | ExtCall.raise e => ({ success := false, error := some e }, st2)
      | ExtCall.ok _embeddings =>
        match upsertOutcome with
        | ExtCall.raise e => ({ success := false, error := some e }, st2)
        | ExtCall.ok false =>
          ({ success := false
             error := some ("Failed to store vectors in database".toList) }, st2)
        | ExtCall.ok true =>
          ({ success := true
             document_id := some doc_id
             chunks_created := some chunks.length
             validation_stats := some (validate_chunks (chunks.map chunkAsDict)) }, st2)

/-- The `stats` sub-dictionary of a successful query response. -/
structure QueryStats where
  response_time : ℚ
  estimated_tokens : Nat
  estimated_cost : ℚ
  chunks_retrieved : Option Nat := none
  chunks_reranked : Option Nat := none
  citations_added : Option Nat := none
deriving DecidableEq

/-- The dictionary `query_document` returns. -/
structure QueryResult where
  success : Bool
  error : Option Str := none
  answer : Option Str := none
  citations : Option (List Citation) := none
  stats : Option QueryStats := none
deriving DecidableEq

/-- The canned no-relevant-information answer (apostrophe written through its
code point). -/
def noRelevantInfoAnswer : Str :=
  "I couldn".toList ++ [Char.ofNat 39] ++
    "t find relevant information to answer your question in the document.".toList

/-- Embeds `DocuMindAPIService._generate_answer_with_context`: its internal
`try/except` converts a generation exception into an error *string*, so the
call always returns an answer text. -/
def generate_answer (genOutcome : ExtCall Str) : Str :=
  match genOutcome with
  | ExtCall.ok answer => answer
  | ExtCall.raise e =>
    "I encountered an error while generating the answer: ".toList ++ e

/-- Embeds `DocuMindAPIService._calculate_cost` (`0.01` per 1K tokens, exact in the
rational model). -/
def calculate_cost (tokens : Nat) : ℚ := (tokens : ℚ) / 1000 * (1 / 100)

/-- Embeds `str` of the `KeyError` raised by `result["text"]` on a dict without the key. -/
def keyErrorText : Str :=
  [Char.ofNat 39] ++ "text".toList ++ [Char.ofNat 39]

/-- Embeds `DocuMindAPIService.query_document`.  `embedOutcome` is the
`gemini_embed_query` call, `searchOutcome` the `search_vectors` call (which
the source asks for `top_k * 2` results filtered to the document),
`remote` the provider call of the reranker and `genOutcome` the chat call;
`t0`/`t1` are the two `time.time()` readings.  The query path never mutates
the state. -/
def query_document (st : OrchestratorState) (document_id question : Str)
    (top_k : Int) (provider : Str) (embedOutcome : ExtCall EmbedVec)
    (searchOutcome : ExtCall (List DocDict)) (remote : RemoteOutcome)
    (genOutcome : ExtCall Str) (t0 t1 : ℚ) : QueryResult :=
  if (st.documents.lookup document_id).isNone then
    { success := false, error := some ("Document not found".toList) }
  else
    match embedOutcome with
    | ExtCall.raise e => { success := false, error := some e }
    | ExtCall.ok _query_embedding =>
      match searchOutcome with
      | ExtCall.raise e => { success := false, error := some e }
      | ExtCall.ok search_results =>
        if search_results = [] then
          { success := true
            answer := some noRelevantInfoAnswer
            citations := some []
            stats := some
              { response_time := t1 - t0, estimated_tokens := 0, estimated_cost := 0 } }
        else
          let reranked_results := rerank provider question search_results top_k remote
          if reranked_results.all (fun r => r.text.isSome) then
            let context_chunks := reranked_results.map (fun r => r.text.getD [])
            let answer := generate_answer genOutcome
            let ac := add_citations_to_answer answer reranked_results
            let estimated_tokens :=
              (pySplitWs question).length +
                (context_chunks.map (fun c => (pySplitWs c).length)).sum
            { success := true
              answer := some ac.1
              citations := some ac.2
              stats := some
                { response_time := t1 - t0
                  estimated_tokens := estimated_tokens
                  estimated_cost := calculate_cost estimated_tokens
                  chunks_retrieved := some search_results.length
                  chunks_reranked := some reranked_results.length
                  citations_added := some ac.2.length } }
          else
            { success := false, error := some keyErrorText }

/-! ## Auxiliary definitions used by the verification statements -/

/-- Concatenation of chunk texts with the configured overlap removed: the
first chunk whole, every later chunk without its leading `chunk_overlap`
characters. -/
def reconstructOverlap : List Str → Str
  | [] => []
  | c :: rest => c ++ (rest.map (fun x => x.drop chunk_overlap)).flatten

/-- The `overall_quality` entry of a `validate_chunks` result (empty for the
error dictionary, which has no such key). -/
def qualityOf : ChunkValidationOut → Str
  | ChunkValidationOut.error _ => []
  | ChunkValidationOut.stats s => s.overall_quality

/-- Spec-side reading of the broken-sentence test, for comparison with the
code: the trailing character of the chunk text itself (no stripping) is not
one of `.`, `!`, `?`, newline. -/
def claimBrokenPred (c : ChunkDict) : Bool :=
  ¬ endsWithSentencePunct (c.text.getD [])

/-- The descending-by-`rrKey` relation realised by the fallback sort. -/
def rrGE (a b : DocDict) : Prop := rrKey b ≤ rrKey a

/-- Fixture: the answer string of the citation test sentence. -/
def answerC1 : Str :=
  "Cats are mammals. They have four legs. Felines are carnivores.".toList

/-- The answer the citation service actually produces for `answerC1` with
three available citations: only the first sentence is cited (sentences one and
two carry no keyword and no digit and their indices are not multiples of
three), and the sentence-splitting drops the original punctuation. -/
def answerC1cited : Str :=
  "Cats are mammals [1] They have four legs Felines are carnivores".toList

/-- Fixture: ranked chunks as they reach the citation service (no rational
fields are set, so record equalities on them stay kernel-decidable). -/
def chunkF1 : DocDict := { text := some ("Chunk one".toList) }
def chunkF2 : DocDict := { text := some ("Chunk two".toList) }
def chunkF3 : DocDict := { text := some ("Chunk three".toList) }

/-- Fixture: candidate documents for the reranker statements. -/
def docF1 : DocDict := { text := some ("ab".toList) }
def docF2 : DocDict := { text := some ("x".toList) }

/-- Fixture: a remote response with pairwise-distinct signed indices.  On two
candidates the indices `-2` and `-1` wrap to positions `0` and `1`, so all
four items pass the `doc_index < len(documents)` guard. -/
def remoteF : RemoteResults := [(-2, 0), (-1, 0), (0, 0), (1, 0)]

deriving instance DecidableEq for Except

/-- The chunk list of a successful `chunk_document` call (empty on the
exception path; used to name the result of a call known to succeed). -/
def okChunks : Except Str (List Chunk) → List Chunk
  | Except.ok l => l
  | Except.error _ => []

/-- Fixture: a chunk whose text ends in a bare newline — its stripped text
ends in `c`, so the code counts it as a broken sentence even though its
trailing character is a newline. -/
def brokenFixture : ChunkDict :=
  { estimated_tokens := some 5, text := some ("abc\n".toList) }

/-- Fixture: a well-formed small chunk. -/
def goodFixture : ChunkDict :=
  { estimated_tokens := some 5, text := some ("ok.".toList) }

/-- Fixture: document content for the chunking statements. -/
def contentF : Str := "hello world.".toList

/-- Fixture: a stored document record for the orchestrator statements. -/
def docRecF : DocRecord :=
  { id := "doc1".toList, content := "hello.".toList, source := "s".toList
    title := "t".toList, doc_type := "text".toList, upload_time := 0
    word_count := 1, char_count := 6 }

/-- Fixture: an orchestrator state holding exactly the document `doc1`. -/
def stF : OrchestratorState :=
  { documents := [("doc1".toList, docRecF)], document_chunks := [] }

/-! ## Helper lemmas -/

theorem lookup_dictSet {V : Type} (d : List (Str × V)) (k : Str) (v : V) :
    (dictSet d k v).lookup k = some v := by
  induction d with
  | nil => simp [dictSet, List.lookup]
  | cons p rest ih =>
    obtain ⟨k0, v0⟩ := p
    rw [dictSet]
    by_cases h : k0 = k
    · simp [h, List.lookup]
    · have hbe : (k == k0) = false := by
        simp only [beq_eq_false_iff_ne, ne_eq]
        exact fun e => h e.symm
      simpa [List.lookup, hbe, h] using ih

theorem createLoop_length (l : List DocDict) : ∀ i, (createLoop i l).length = l.length := by
  induction l with
  | nil => intro i; simp [createLoop]
  | cons c rest ih => intro i; simp [createLoop, ih]

theorem createLoop_map_id (l : List DocDict) :
    ∀ i, (createLoop i l).map (fun c => c.id) = List.range' (i + 1) l.length := by
  induction l with
  | nil => intro i; simp [createLoop]
  | cons c rest ih =>
    intro i
    simp [createLoop, mkCitation, ih (i + 1), List.range'_succ]

theorem createLoop_getElem? (l : List DocDict) :
    ∀ i n, (createLoop i l).get? n = (l.get? n).map (fun c => mkCitation (i + n) c) := by
  induction l with
  | nil => intro i n; simp [createLoop]
  | cons c rest ih =>
    intro i n
    cases n with
    | zero => simp [createLoop]
    | succ m =>
      have harith : i + (m + 1) = (i + 1) + m := by omega
      simp only [createLoop, List.get?_cons_succ, harith, ih (i + 1) m]

theorem insertDesc_perm (x : DocDict) (l : List DocDict) :
    (insertDesc x l).Perm (x :: l) := by
  induction l with
  | nil => simp [insertDesc]
  | cons y ys ih =>
    rw [insertDesc]
    split
    · exact List.Perm.refl _
    · exact (List.Perm.cons y ih).trans (List.Perm.swap x y ys)

theorem sortDesc_perm (l : List DocDict) : (sortDesc l).Perm l := by
  induction l with
  | nil => simp [sortDesc]
  | cons x xs ih => exact (insertDesc_perm x (sortDesc xs)).trans (List.Perm.cons x ih)

theorem insertDesc_pairwise (x : DocDict) (l : List DocDict)
    (h : l.Pairwise rrGE) : (insertDesc x l).Pairwise rrGE := by
  induction l with
  | nil => simp [insertDesc, rrGE]
  | cons y ys ih =>
    rw [insertDesc]
    rw [List.pairwise_cons] at h
    split
    · rename_i hxy
      refine List.pairwise_cons.mpr ⟨?_, List.pairwise_cons.mpr h⟩
      intro z hz
      rcases List.mem_cons.mp hz with rfl | hz2
      · exact hxy
      · exact le_trans (h.1 z hz2) hxy
    · rename_i hxy
      refine List.pairwise_cons.mpr ⟨?_, ih h.2⟩
      intro z hz
      have hz3 : z ∈ x :: ys := (insertDesc_perm x ys).mem_iff.mp hz
      rcases List.mem_cons.mp hz3 with rfl | hz4
      · exact le_of_not_le hxy
      · exact h.1 z hz4

theorem sortDesc_pairwise (l : List DocDict) : (sortDesc l).Pairwise rrGE := by
  induction l with
  | nil => simp [sortDesc]
  | cons x xs ih => exact insertDesc_pairwise x (sortDesc xs) ih

theorem pySliceTo_subset {α : Type} (l : List α) (k : Int) : pySliceTo l k ⊆ l := by
  rw [pySliceTo]
  split <;> exact List.take_subset _ _

theorem pySliceTo_sublist {α : Type} (l : List α) (k : Int) :
    (pySliceTo l k).Sublist l := by
  rw [pySliceTo]
  split <;> exact List.take_sublist _ _

theorem length_pySliceTo_nonneg {α : Type} (l : List α) (k : Int) (hk : 0 ≤ k) :
    (pySliceTo l k).length = min k.toNat l.length := by
  rw [pySliceTo, if_pos hk, List.length_take]

theorem length_pySliceTo_neg {α : Type} (l : List α) (k : Int) (hk : k < 0) :
    (pySliceTo l k).length = l.length - (-k).toNat := by
  rw [pySliceTo, if_neg (by omega), List.length_take]
  omega

theorem pySliceTo_all {α : Type} (l : List α) (k : Int) (hk : (l.length : Int) ≤ k) :
    pySliceTo l k = l := by
  rw [pySliceTo, if_pos (by omega)]
  exact List.take_of_length_le (by omega)

theorem length_filterMap_isSome {α β : Type} (f : α → Option β) (p : α → Bool)
    (h : ∀ x, (f x).isSome = p x) (l : List α) :
    (l.filterMap f).length = (l.filter p).length := by
  induction l with
  | nil => simp
  | cons a rest ih =>
    by_cases ha : p a
    · obtain ⟨b, hb⟩ := Option.isSome_iff_exists.mp (by rw [h a, ha])
      simp [List.filterMap_cons, List.filter_cons, hb, ha, ih]
    · have : f a = none := by
        cases hfa : f a with
        | none => rfl
        | some b => exfalso; exact ha (by rw [← h a, hfa]; rfl)
      simp [List.filterMap_cons, List.filter_cons, this, ha, ih]

/-- A duplicate-free list of naturals all below `n` has length at most `n`. -/
theorem nodup_lt_length_le (l : List Nat) (n : Nat) (hnd : l.Nodup)
    (hlt : ∀ x ∈ l, x < n) : l.length ≤ n := by
  classical
  have h1 : l.toFinset.card = l.length := List.toFinset_card_of_nodup hnd
  have h2 : l.toFinset ⊆ Finset.range n := by
    intro x hx
    exact Finset.mem_range.mpr (hlt x (List.mem_toFinset.mp hx))
  calc l.length = l.toFinset.card := h1.symm
    _ ≤ (Finset.range n).card := Finset.card_le_card h2
    _ = n := Finset.card_range n

/-- A duplicate-free list of integers all in `[0, n)` has length at most
`n`. -/
theorem nodup_int_lt_length_le (l : List Int) (n : Nat) (hnd : l.Nodup)
    (h : ∀ x ∈ l, 0 ≤ x ∧ x < (n : Int)) : l.length ≤ n := by
  have hmapnd : (l.map Int.toNat).Nodup := by
    refine List.Nodup.map_on ?_ hnd
    intro x hx y hy hxy
    have h1 := (h x hx).1
    have h2 := (h y hy).1
    omega
  calc l.length = (l.map Int.toNat).length := (List.length_map _ _).symm
    _ ≤ n := by
        refine nodup_lt_length_le _ _ hmapnd ?_
        intro m hm
        obtain ⟨x, hx, rfl⟩ := List.mem_map.mp hm
        have := h x hx
        omega

/-- When every response index is nonnegative, the processing loop raises no
`IndexError` and keeps exactly the items whose index passes the
`doc_index < len(documents)` guard. -/
theorem processLoop_eq_of_nonneg (provider : Str) (documents : List DocDict) :
    ∀ results : RemoteResults, (∀ p ∈ results, 0 ≤ p.1) →
      processLoop provider documents results =
        some (results.filterMap (fun item =>
          if item.1 < (documents.length : Int) then
            (documents.get? item.1.toNat).map (fun doc =>
              { doc with rerank_score := some item.2,
                         rerank_provider := some provider })
          else none)) := by
  intro results
  induction results with
  | nil => intro _; rfl
  | cons q rest ih =>
    intro hnn
    have hq : 0 ≤ q.1 := hnn q (List.mem_cons_self _ _)
    have hrest : ∀ p ∈ rest, 0 ≤ p.1 :=
      fun p hp => hnn p (List.mem_cons_of_mem _ hp)
    rw [processLoop, List.filterMap_cons]
    by_cases hlt : q.1 < (documents.length : Int)
    · have htn : q.1.toNat < documents.length := by omega
      cases hd : documents.get? q.1.toNat with
      | none =>
        exfalso
        have := List.get?_eq_none.mp hd
        omega
      | some d =>
        have hpg : pyGetItem documents q.1 = some d := by
          rw [pyGetItem, if_pos hq, hd]
        rw [if_pos hlt, hpg, ih hrest]
        simp [if_pos hlt, hd]
    · rw [if_neg hlt, ih hrest]
      simp [if_neg hlt]

/-- A response item whose index passes the guard but lies below
`-len(documents)` raises `IndexError` inside the processing loop. -/
theorem processLoop_none_of_bad (provider : Str) (documents : List DocDict) :
    ∀ results : RemoteResults,
      (∃ p ∈ results, p.1 < (documents.length : Int) ∧
        p.1 + (documents.length : Int) < 0) →
      processLoop provider documents results = none := by
  intro results
  induction results with
  | nil => rintro ⟨p, hp, _⟩; cases hp
  | cons q rest ih =>
    rintro ⟨p, hp, hlt, hbad⟩
    rcases List.mem_cons.mp hp with rfl | hmem
    · rw [processLoop, if_pos hlt]
      have hpg : pyGetItem documents p.1 = none := by
        rw [pyGetItem, if_neg (by omega), if_neg (by omega)]
      rw [hpg]
    · rw [processLoop]
      by_cases hq : q.1 < (documents.length : Int)
      · rw [if_pos hq]
        cases hpg : pyGetItem documents q.1 with
        | none => rfl
        | some d => rw [ih ⟨p, hmem, hlt, hbad⟩]; rfl
      · rw [if_neg hq]
        exact ih ⟨p, hmem, hlt, hbad⟩

theorem splitAux_head (fuel : Nat) (s : Str) (h : s.length < fuel) :
    ∃ t, splitAux fuel s = s.take chunk_size :: t := by
  cases fuel with
  | zero => omega
  | succ fuel =>
    rw [splitAux]
    by_cases hle : s.length ≤ chunk_size
    · rw [if_pos hle, List.take_of_length_le hle]
      exact ⟨[], rfl⟩
    · rw [if_neg hle]
      exact ⟨_, rfl⟩

theorem reconstructOverlap_splitAux :
    ∀ (fuel : Nat) (s : Str), s.length < fuel →
      reconstructOverlap (splitAux fuel s) = s := by
  intro fuel
  induction fuel with
  | zero => intro s h; omega
  | succ fuel ih =>
    intro s h
    rw [splitAux]
    by_cases hle : s.length ≤ chunk_size
    · rw [if_pos hle]
      simp [reconstructOverlap]
    · rw [if_neg hle]
      have hfuel2 : (s.drop (chunk_size - chunk_overlap)).length < fuel := by
        rw [List.length_drop]
        simp only [chunk_size, chunk_overlap] at *
        omega
      obtain ⟨t, ht⟩ := splitAux_head fuel _ hfuel2
      have ihr := ih _ hfuel2
      rw [ht, reconstructOverlap] at ihr
      rw [ht, reconstructOverlap, List.map_cons, List.flatten_cons]
      have hflat : ((t.map (fun x => x.drop chunk_overlap)).flatten : Str) =
          (s.drop (chunk_size - chunk_overlap)).drop
            (((s.drop (chunk_size - chunk_overlap)).take chunk_size).length) := by
        calc ((t.map (fun x => x.drop chunk_overlap)).flatten : Str)
            = ((s.drop (chunk_size - chunk_overlap)).take chunk_size ++
                (t.map (fun x => x.drop chunk_overlap)).flatten).drop
                  (((s.drop (chunk_size - chunk_overlap)).take chunk_size).length) :=
              (List.drop_left _ _).symm
          _ = (s.drop (chunk_size - chunk_overlap)).drop
                (((s.drop (chunk_size - chunk_overlap)).take chunk_size).length) := by
              rw [ihr]
      rw [hflat]
      have hdrop_eq : (s.drop (chunk_size - chunk_overlap)).drop
          (((s.drop (chunk_size - chunk_overlap)).take chunk_size).length) =
          (s.drop (chunk_size - chunk_overlap)).drop chunk_size := by
        rw [List.length_take]
        by_cases hcs : chunk_size ≤ (s.drop (chunk_size - chunk_overlap)).length
        · rw [Nat.min_eq_left hcs]
        · rw [Nat.min_eq_right (by omega), List.drop_length,
            List.drop_eq_nil_of_le (by omega)]
      rw [hdrop_eq, List.drop_take, List.drop_drop, List.drop_drop]
      have h1 : (chunk_size - chunk_overlap) + chunk_overlap = chunk_size := by
        simp [chunk_size, chunk_overlap]
      have h2 : (chunk_size - chunk_overlap) + chunk_size =
          chunk_size + (chunk_size - chunk_overlap) := by omega
      rw [h1, h2, ← List.drop_drop, List.take_append_drop, List.take_append_drop]

theorem reconstruct_split_text (s : Str) :
    reconstructOverlap (split_text s) = s :=
  reconstructOverlap_splitAux (s.length + 1) s (Nat.lt_succ_self _)

theorem split_text_ne_nil (s : Str) : split_text s ≠ [] := by
  obtain ⟨t, ht⟩ := splitAux_head (s.length + 1) s (Nat.lt_succ_self _)
  rw [split_text, ht]
  simp

theorem create_chunk_metadata_text (chunk : Str) (i total : Nat)
    (source title doc_id : Str) (pos : Nat) (m : Chunk)
    (h : create_chunk_metadata chunk i total source title doc_id pos = Except.ok m) :
    m.text = chunk := by
  rw [create_chunk_metadata] at h
  cases he : extract_section chunk i with
  | error e =>
    rw [he] at h
    simp [Bind.bind, Except.bind] at h
  | ok sect =>
    rw [he] at h
    simp only [Bind.bind, Except.bind, pure, Except.pure, Except.ok.injEq] at h
    rw [← h]

theorem chunkLoop_ok_texts (source title doc_id : Str) :
    ∀ (l : List Str) (total i : Nat) (cs : List Chunk),
      chunkLoop total source title doc_id i l = Except.ok cs →
      cs.map (fun c => c.text) = l := by
  intro l
  induction l with
  | nil =>
    intro total i cs h
    rw [chunkLoop] at h
    cases h
    simp
  | cons chunk rest ih =>
    intro total i cs h
    rw [chunkLoop] at h
    cases hm : create_chunk_metadata chunk i total source title doc_id i with
    | error e =>
      rw [hm] at h
      simp [Bind.bind, Except.bind] at h
    | ok m =>
      rw [hm] at h
      cases hms : chunkLoop total source title doc_id (i + 1) rest with
      | error e =>
        rw [hms] at h
        simp [Bind.bind, Except.bind] at h
      | ok ms =>
        rw [hms] at h
        simp only [Bind.bind, Except.bind, pure, Except.pure, Except.ok.injEq] at h
        rw [← h, List.map_cons,
          create_chunk_metadata_text _ _ _ _ _ _ _ _ hm, ih _ _ _ hms]

/-! ## Claim theorems -/

/-- Claim C10: for every answer string, `add_citations_to_answer` with an
empty source-chunk list returns the answer unchanged together with an empty
citation list. -/
theorem C10_theorem (answer : Str) :
    add_citations_to_answer answer [] = (answer, []) := by
  simp [add_citations_to_answer]

/-- Claim C9: `rerank` called with an empty (falsy) query string returns the
empty sequence for every candidate list, every `top_k` and every remote
outcome — in particular the result never depends on the remote call. -/
theorem C9_theorem (provider : Str) (documents : List DocDict) (top_k : Int)
    (remote : RemoteOutcome) :
    rerank provider [] documents top_k remote = [] := by
  simp [rerank]

/-- Claim C3: for every nonempty query (so that the guarded remote call is
reached at all) and nonempty candidate list, a failing remote call never
propagates: `rerank` returns exactly the local fallback result, every returned
candidate carries `rerank_provider = "fallback"` and `rerank_score` equal to
the difflib similarity ratio of the lowercased query against its own lowercased
text, and the result is sorted by score descending.  Determinism across
repeated calls is inherent: the embedding is a pure function of its
arguments. -/
theorem C3_theorem (provider query : Str) (documents : List DocDict)
    (top_k : Int) (hq : query ≠ []) (hd : documents ≠ []) :
    rerank provider query documents top_k RemoteOutcome.failure =
        fallback_rerank query documents top_k ∧
    (∀ d ∈ rerank provider query documents top_k RemoteOutcome.failure,
        d.rerank_provider = some ("fallback".toList) ∧
        d.rerank_score =
          some (ratioOf (pyLower query) (pyLower (d.text.getD [])))) ∧
    (rerank provider query documents top_k RemoteOutcome.failure).Pairwise rrGE := by
  have heq : rerank provider query documents top_k RemoteOutcome.failure =
      fallback_rerank query documents top_k := by
    simp [rerank, hq, hd]
  refine ⟨heq, ?_, ?_⟩
  · intro d hmem
    rw [heq] at hmem
    simp only [fallback_rerank] at hmem
    have h3 : d ∈ sortDesc (documents.map (fallbackScore (pyLower query))) :=
      pySliceTo_subset _ _ hmem
    have h4 : d ∈ documents.map (fallbackScore (pyLower query)) :=
      (sortDesc_perm _).mem_iff.mp h3
    obtain ⟨doc, _, rfl⟩ := List.mem_map.mp h4
    exact ⟨rfl, rfl⟩
  · rw [heq]
    simp only [fallback_rerank]
    exact (sortDesc_pairwise _).sublist (pySliceTo_sublist _ _)

/-- Claim C3, witnessed at a concrete input. -/
theorem C3_witness :
    ("ab".toList ≠ ([] : Str)) ∧ ([docF1, docF2] ≠ ([] : List DocDict)) ∧
    (rerank ("cohere".toList) ("ab".toList) [docF1, docF2] 5 RemoteOutcome.failure =
        fallback_rerank ("ab".toList) [docF1, docF2] 5 ∧
      (∀ d ∈ rerank ("cohere".toList) ("ab".toList) [docF1, docF2] 5
          RemoteOutcome.failure,
        d.rerank_provider = some ("fallback".toList) ∧
        d.rerank_score =
          some (ratioOf (pyLower ("ab".toList)) (pyLower (d.text.getD [])))) ∧
      (rerank ("cohere".toList) ("ab".toList) [docF1, docF2] 5
          RemoteOutcome.failure).Pairwise rrGE) :=
  ⟨by decide, by decide, C3_theorem _ _ _ _ (by decide) (by decide)⟩

/-- Claim C4 (counterexample to the claim as stated): two refutations.
For the negative `top_k = -1` the result is not empty — the Python
`[:top_k]` slice with a negative bound drops elements from the end instead of
clamping to zero.  And on the remote path, a successful response with
pairwise-distinct signed indices `[-2, -1, 0, 1]` over two candidates passes
the `doc_index < len(documents)` guard four times (the negative indices wrap),
so with `top_k = 3` the call returns 3 results, above the claimed bound
`min(top_k, len(candidates)) = 2`. -/
theorem C4_counterexample :
    ((rerank ("cohere".toList) ("ab".toList) [docF1, docF2] (-1)
        RemoteOutcome.failure).length = 1 ∧
      rerank ("cohere".toList) ("ab".toList) [docF1, docF2] (-1)
        RemoteOutcome.failure ≠ []) ∧
    ((remoteF.map Prod.fst).Nodup ∧
      (rerank ("cohere".toList) ("ab".toList) [docF1, docF2] 3
        (RemoteOutcome.ok remoteF)).length = 3 ∧
      ¬((rerank ("cohere".toList) ("ab".toList) [docF1, docF2] 3
          (RemoteOutcome.ok remoteF)).length ≤
        min (Int.toNat 3) ([docF1, docF2] : List DocDict).length)) := by
  have hc : ¬(([docF1, docF2] : List DocDict) = [] ∨ ("ab".toList : Str) = []) := by
    decide
  have h1 : rerank ("cohere".toList) ("ab".toList) [docF1, docF2] (-1)
      RemoteOutcome.failure =
      pySliceTo (sortDesc ([docF1, docF2].map (fallbackScore (pyLower ("ab".toList)))))
        (-1) := by
    simp only [rerank, if_neg hc, fallback_rerank]
  have h2 : (rerank ("cohere".toList) ("ab".toList) [docF1, docF2] (-1)
      RemoteOutcome.failure).length = 1 := by
    rw [h1, length_pySliceTo_neg _ _ (by norm_num), (sortDesc_perm _).length_eq,
      List.length_map]
    decide
  refine ⟨⟨h2, fun hnil => ?_⟩, by decide, by decide, by decide⟩
  rw [hnil] at h2
  simp at h2

/-- Claim C4 (amended): for a nonempty query, (i) on a successful remote call
whose response indices are pairwise distinct and nonnegative (valid JSON
positions, as the provider contract of spec §6 produces), at most
`min(top_k, len(candidates))` results for `top_k ≥ 0` — the guard
`doc_index < len(documents)` accepts negative indices, which Python list
indexing resolves by wraparound, so distinct signed indices can exceed that
bound (see the counterexample); (ii) a response index that passes the guard
but lies below `-len(candidates)` raises `IndexError` inside the `try` block
and the call degrades to the local fallback result; (iii) on the fallback
path exactly `min(top_k, len(candidates))` results for `top_k ≥ 0`;
(iv) `top_k = 0` and (v) empty candidates give the empty sequence for every
remote outcome; (vi) when `top_k ≥ len(candidates)` the fallback result is a
permutation of the scored candidates — exactly `len(candidates)` results, no
duplication; (vii) a negative `top_k` is not clamped: the fallback path
returns `len(candidates) - |top_k|` results (truncated at zero), per Python
slice semantics. -/
theorem C4_theorem (provider query : Str) (documents : List DocDict)
    (top_k : Int) (hq : query ≠ []) :
    (∀ results : RemoteResults, (∀ p ∈ results, 0 ≤ p.1) →
        (results.map Prod.fst).Nodup → 0 ≤ top_k →
        (rerank provider query documents top_k (RemoteOutcome.ok results)).length ≤
          min top_k.toNat documents.length) ∧
    (∀ results : RemoteResults,
        (∃ p ∈ results, p.1 < (documents.length : Int) ∧
          p.1 + (documents.length : Int) < 0) →
        rerank provider query documents top_k (RemoteOutcome.ok results) =
          fallback_rerank query documents top_k) ∧
    (0 ≤ top_k →
        (rerank provider query documents top_k RemoteOutcome.failure).length =
          min top_k.toNat documents.length) ∧
    (top_k = 0 → ∀ remote,
        rerank provider query documents top_k remote = []) ∧
    (documents = [] → ∀ remote,
        rerank provider query documents top_k remote = []) ∧
    ((documents.length : Int) ≤ top_k →
        (rerank provider query documents top_k RemoteOutcome.failure).Perm
          (documents.map (fallbackScore (pyLower query)))) ∧
    (top_k < 0 →
        (rerank provider query documents top_k RemoteOutcome.failure).length =
          documents.length - (-top_k).toNat) := by
  have hfail : documents ≠ [] →
      rerank provider query documents top_k RemoteOutcome.failure =
        pySliceTo (sortDesc (documents.map (fallbackScore (pyLower query)))) top_k := by
    intro hdoc
    simp [rerank, hdoc, hq, fallback_rerank]
  have hlen : (sortDesc (documents.map (fallbackScore (pyLower query)))).length =
      documents.length := by
    rw [(sortDesc_perm _).length_eq, List.length_map]
  refine ⟨?_, ?_, ?_, ?_, ?_, ?_, ?_⟩
  · intro results hnn hnd hk
    by_cases hdoc : documents = []
    · simp [rerank, hdoc]
    · have hpl := processLoop_eq_of_nonneg provider documents results hnn
      have hre : rerank provider query documents top_k (RemoteOutcome.ok results) =
          pySliceTo (results.filterMap (fun item =>
            if item.1 < (documents.length : Int) then
              (documents.get? item.1.toNat).map (fun doc =>
                { doc with rerank_score := some item.2,
                           rerank_provider := some provider })
            else none)) top_k := by
        simp [rerank, hdoc, hq, processRemoteResults, hpl]
      have hcore :
          (results.filterMap (fun item =>
            if item.1 < (documents.length : Int) then
              (documents.get? item.1.toNat).map (fun doc =>
                { doc with rerank_score := some item.2,
                           rerank_provider := some provider })
            else none)).length ≤ documents.length := by
        have hfm := length_filterMap_isSome
          (fun (item : Int × ℚ) =>
            if item.1 < (documents.length : Int) then
              (documents.get? item.1.toNat).map (fun (doc : DocDict) =>
                { doc with rerank_score := some item.2,
                           rerank_provider := some provider })
            else none)
          (fun (item : Int × ℚ) =>
            decide (item.1 < (documents.length : Int)) &&
              (documents.get? item.1.toNat).isSome)
          (fun x => by
            by_cases hx : x.1 < (documents.length : Int)
            · simp [hx, Option.isSome_map]
            · simp [hx]) results
        rw [hfm, ← List.length_map _ Prod.fst]
        refine nodup_int_lt_length_le _ _ ?_ ?_
        · exact hnd.sublist (List.Sublist.map Prod.fst (List.filter_sublist results))
        · intro x hx
          obtain ⟨item, hitem, rfl⟩ := List.mem_map.mp hx
          have hp := List.of_mem_filter hitem
          have hmem := List.mem_of_mem_filter hitem
          simp only [Bool.and_eq_true, decide_eq_true_eq] at hp
          exact ⟨hnn item hmem, hp.1⟩
      rw [hre, length_pySliceTo_nonneg _ _ hk]
      exact min_le_min (le_refl _) hcore
  · intro results hbad
    by_cases hdoc : documents = []
    · simp [rerank, hdoc, fallback_rerank, hdoc, sortDesc, pySliceTo]
    · have hnone := processLoop_none_of_bad provider documents results hbad
      simp [rerank, hdoc, hq, processRemoteResults, hnone]
  · intro hk
    by_cases hdoc : documents = []
    · simp [rerank, hdoc]
    · rw [hfail hdoc, length_pySliceTo_nonneg _ _ hk, hlen]
  · intro hk0 remote
    subst hk0
    by_cases hdoc : documents = []
    · simp [rerank, hdoc]
    · have hslice : ∀ l : List DocDict, pySliceTo l (0 : Int) = [] := by
        intro l
        simp [pySliceTo]
      cases remote with
      | ok results =>
        cases hpl : processLoop provider documents results with
        | none =>
          simp [rerank, hdoc, hq, processRemoteResults, hpl, fallback_rerank, hslice]
        | some l =>
          simp [rerank, hdoc, hq, processRemoteResults, hpl, hslice]
      | failure =>
        rw [hfail hdoc]
        exact hslice _
  · intro hdoc remote
    simp [rerank, hdoc]
  · intro hk
    by_cases hdoc : documents = []
    · simp [rerank, hdoc]
    · rw [hfail hdoc, pySliceTo_all _ _ (by rw [hlen]; exact hk)]
      exact sortDesc_perm _
  · intro hneg
    by_cases hdoc : documents = []
    · simp [rerank, hdoc]
    · rw [hfail hdoc, length_pySliceTo_neg _ _ hneg, hlen]

/-- Claim C4, witnessed at a concrete input. -/
theorem C4_witness :
    ("ab".toList ≠ ([] : Str)) ∧
    ((∀ results : RemoteResults, (∀ p ∈ results, 0 ≤ p.1) →
        (results.map Prod.fst).Nodup → (0 : Int) ≤ 5 →
        (rerank ("cohere".toList) ("ab".toList) [docF1, docF2] 5
          (RemoteOutcome.ok results)).length ≤
            min (Int.toNat 5) [docF1, docF2].length) ∧
      (∀ results : RemoteResults,
        (∃ p ∈ results, p.1 < (([docF1, docF2] : List DocDict).length : Int) ∧
          p.1 + (([docF1, docF2] : List DocDict).length : Int) < 0) →
        rerank ("cohere".toList) ("ab".toList) [docF1, docF2] 5
            (RemoteOutcome.ok results) =
          fallback_rerank ("ab".toList) [docF1, docF2] 5) ∧
      ((0 : Int) ≤ 5 →
        (rerank ("cohere".toList) ("ab".toList) [docF1, docF2] 5
          RemoteOutcome.failure).length = min (Int.toNat 5) [docF1, docF2].length) ∧
      ((5 : Int) = 0 → ∀ remote,
        rerank ("cohere".toList) ("ab".toList) [docF1, docF2] 5 remote = []) ∧
      ([docF1, docF2] = ([] : List DocDict) → ∀ remote,
        rerank ("cohere".toList) ("ab".toList) [docF1, docF2] 5 remote = []) ∧
      (([docF1, docF2].length : Int) ≤ 5 →
        (rerank ("cohere".toList) ("ab".toList) [docF1, docF2] 5
          RemoteOutcome.failure).Perm
            ([docF1, docF2].map (fallbackScore (pyLower ("ab".toList))))) ∧
      ((5 : Int) < 0 →
        (rerank ("cohere".toList) ("ab".toList) [docF1, docF2] 5
          RemoteOutcome.failure).length = [docF1, docF2].length - (Int.toNat (-5)))) :=
  ⟨by decide, C4_theorem _ _ _ _ (by decide)⟩

/-- Claim C1 (counterexample to the claim as stated): for the given answer
and three ranked chunks the produced text carries exactly one citation marker
`[1]`, not the three markers `[1]`,`[2]`,`[3]` the claim asserts, and
`validate_citations` reports citations 2 and 3 unused. -/
theorem C1_counterexample :
    extract_citations_from_text
        (add_citations_to_answer answerC1 [chunkF1, chunkF2, chunkF3]).1 = [1] ∧
    extract_citations_from_text
        (add_citations_to_answer answerC1 [chunkF1, chunkF2, chunkF3]).1 ≠ [1, 2, 3] ∧
    (validate_citations (add_citations_to_answer answerC1 [chunkF1, chunkF2, chunkF3]).1
        (add_citations_to_answer answerC1 [chunkF1, chunkF2, chunkF3]).2).unused_citations =
      [2, 3] :=
  ⟨by decide, by decide, by decide⟩

/-- Claim C1 (amended): for the answer
`"Cats are mammals. They have four legs. Felines are carnivores."` and any
three ranked chunks, the citation service marks only sentence 0, producing
exactly one marker `[1]` (sentences 1 and 2 match no citation heuristic);
`validate_citations` on the output reports 3 total citations, no missing
citation, citations `[2, 3]` unused, coverage `1/3`, and `is_valid = true`. -/
theorem C1_theorem (c1 c2 c3 : DocDict) :
    (add_citations_to_answer answerC1 [c1, c2, c3]).1 = answerC1cited ∧
    extract_citations_from_text (add_citations_to_answer answerC1 [c1, c2, c3]).1 = [1] ∧
    (validate_citations (add_citations_to_answer answerC1 [c1, c2, c3]).1
        (add_citations_to_answer answerC1 [c1, c2, c3]).2).total_citations = 3 ∧
    (validate_citations (add_citations_to_answer answerC1 [c1, c2, c3]).1
        (add_citations_to_answer answerC1 [c1, c2, c3]).2).missing_citations = [] ∧
    (validate_citations (add_citations_to_answer answerC1 [c1, c2, c3]).1
        (add_citations_to_answer answerC1 [c1, c2, c3]).2).unused_citations = [2, 3] ∧
    (validate_citations (add_citations_to_answer answerC1 [c1, c2, c3]).1
        (add_citations_to_answer answerC1 [c1, c2, c3]).2).citation_coverage = 1 / 3 ∧
    (validate_citations (add_citations_to_answer answerC1 [c1, c2, c3]).1
        (add_citations_to_answer answerC1 [c1, c2, c3]).2).is_valid = true := by
  have hne : ([c1, c2, c3] : List DocDict) ≠ [] := by simp
  have hpair : add_citations_to_answer answerC1 [c1, c2, c3] =
      (insert_citations answerC1 (create_citations [c1, c2, c3]),
       create_citations [c1, c2, c3]) := by
    rw [add_citations_to_answer, if_neg hne]
  have hlen : (create_citations [c1, c2, c3]).length = 3 := by
    rw [create_citations, createLoop_length]
    simp [max_citations]
  have hids : (create_citations [c1, c2, c3]).map (fun c => c.id) = [1, 2, 3] := by
    rw [create_citations, createLoop_map_id]
    have ht : (([c1, c2, c3] : List DocDict).take max_citations).length = 3 := by
      simp [max_citations]
    rw [ht]
    decide
  have hans : insert_citations answerC1 (create_citations [c1, c2, c3]) =
      answerC1cited := by
    simp only [insert_citations, hlen]
    decide
  have h1 : (add_citations_to_answer answerC1 [c1, c2, c3]).1 = answerC1cited := by
    rw [hpair]
    exact hans
  have h2 : (add_citations_to_answer answerC1 [c1, c2, c3]).2 =
      create_citations [c1, c2, c3] := by
    rw [hpair]
  have hex : extract_citations_from_text answerC1cited = [1] := by decide
  refine ⟨h1, by rw [h1]; exact hex, ?_, ?_, ?_, ?_, ?_⟩
  · rw [h1, h2]
    simp only [validate_citations, hlen]
  · rw [h1, h2]
    simp only [validate_citations, hex, hids]
    decide
  · rw [h1, h2]
    simp only [validate_citations, hex, hids]
    decide
  · rw [h1, h2]
    simp only [validate_citations, hex, hids, hlen]
    norm_num
  · rw [h1, h2]
    simp only [validate_citations, hex, hids]
    decide

/-- Claim C7: the citation list built by `add_citations_to_answer` has exactly
`min(len(chunks), max_citations)` entries (hence at most 10), its `id` fields
are exactly `1, 2, …, N` contiguously in list order, and the entry at rank `i`
is built from the chunk at rank `i` with every missing metadata field replaced
by its placeholder default. -/
theorem C7_theorem (answer : Str) (chunks : List DocDict) :
    ((add_citations_to_answer answer chunks).2).length =
      min chunks.length max_citations ∧
    ((add_citations_to_answer answer chunks).2).map (fun c => c.id) =
      List.range' 1 (min chunks.length max_citations) ∧
    (∀ i c, i < max_citations → chunks.get? i = some c →
      ((add_citations_to_answer answer chunks).2).get? i = some
        { id := i + 1
          text := c.text.getD []
          source := c.source.getD ("Unknown Source".toList)
          title := c.title.getD ("Untitled Document".toList)
          sect := c.sect.getD ("Section ".toList ++ natStr (i + 1))
          position := c.citation_position.getD ("Chunk ".toList ++ natStr (i + 1))
          chunk_id := c.chunk_id.getD ("chunk_".toList ++ natStr i)
          score := c.rerank_score.getD (c.score.getD 0) }) := by
  have h2 : (add_citations_to_answer answer chunks).2 = create_citations chunks := by
    by_cases hc : chunks = []
    · subst hc
      simp [add_citations_to_answer, create_citations, createLoop]
    · rw [add_citations_to_answer, if_neg hc]
  rw [h2]
  refine ⟨?_, ?_, ?_⟩
  · rw [create_citations, createLoop_length, List.length_take]
    omega
  · rw [create_citations, createLoop_map_id, List.length_take]
    congr 1
    omega
  · intro i c hi hc
    rw [create_citations, createLoop_getElem?, List.get?_take (by simpa [max_citations] using hi),
      hc]
    simp [mkCitation]

/-- Claim C7, witnessed at a concrete input: two ranked chunks that only carry
a `text` field. -/
theorem C7_witness :
    ((add_citations_to_answer ("Hi.".toList) [chunkF1, chunkF2]).2).length =
      min ([chunkF1, chunkF2].length) max_citations ∧
    ((add_citations_to_answer ("Hi.".toList) [chunkF1, chunkF2]).2).map
        (fun c => c.id) =
      List.range' 1 (min ([chunkF1, chunkF2].length) max_citations) ∧
    ((add_citations_to_answer ("Hi.".toList) [chunkF1, chunkF2]).2).get? 1 = some
      { id := 2
        text := "Chunk two".toList
        source := "Unknown Source".toList
        title := "Untitled Document".toList
        sect := "Section 2".toList
        position := "Chunk 2".toList
        chunk_id := "chunk_1".toList
        score := 0 } :=
  ⟨(C7_theorem _ _).1, (C7_theorem _ _).2.1,
    (C7_theorem ("Hi.".toList) [chunkF1, chunkF2]).2.2 1 chunkF2 (by decide) (by decide)⟩

/-- Claim C5 (counterexample to the claim as stated): the input `" "` is a
nonempty text, yet `chunk_document` returns zero chunks — the guard treats
whitespace-only content like empty content. -/
theorem C5_counterexample :
    (" ".toList : Str) ≠ [] ∧
    chunk_document (" ".toList) ("s".toList) [] ("d".toList) = Except.ok [] :=
  ⟨by decide, by decide⟩

/-- Claim C5 (amended): for every input with non-whitespace content on which
`chunk_document` returns normally (section extraction can raise
`IndexError: no such group` on ALL-CAPS or title-case-colon heading lines; see
`extract_section`), at least one chunk is produced, and concatenating the
chunk texts with the 150-character overlap removed from every chunk after the
first reconstructs the normalized input `clean_content content`. -/
theorem C5_theorem (content source title doc_id : Str) (chunks : List Chunk)
    (hnw : pyStrip content ≠ [])
    (hok : chunk_document content source title doc_id = Except.ok chunks) :
    chunks ≠ [] ∧
    reconstructOverlap (chunks.map (fun c => c.text)) = clean_content content := by
  have hcne : content ≠ [] := fun h => hnw (by rw [h]; rfl)
  rw [chunk_document, if_neg (by simp [hcne, hnw])] at hok
  have htexts : chunks.map (fun c => c.text) = split_text (clean_content content) :=
    chunkLoop_ok_texts _ _ _ _ _ _ _ hok
  constructor
  · intro h
    rw [h] at htexts
    exact split_text_ne_nil _ htexts.symm
  · rw [htexts]
    exact reconstruct_split_text _

/-- Claim C5, witnessed at a concrete input. -/
theorem C5_witness :
    okChunks (chunk_document contentF ("s".toList) [] ("d".toList)) ≠ [] ∧
    reconstructOverlap
        ((okChunks (chunk_document contentF ("s".toList) [] ("d".toList))).map
          (fun c => c.text)) =
      clean_content contentF :=
  C5_theorem contentF ("s".toList) [] ("d".toList)
    (okChunks (chunk_document contentF ("s".toList) [] ("d".toList)))
    (by decide) (by decide)

/-- Claim C8 (counterexample to the claim as stated): for the single chunk
whose text is `"abc\n"` the trailing character is a newline, so under the
definition used by the claim there are zero broken-sentence chunks and zero oversized
chunks and the verdict should be `"good"` — but the code strips the text
before testing the suffix, counts the chunk as broken, and reports
`"needs_improvement"`. -/
theorem C8_counterexample :
    qualityOf (validate_chunks [brokenFixture]) = "needs_improvement".toList ∧
    ([brokenFixture].filter oversizedPred).length = 0 ∧
    ([brokenFixture].filter claimBrokenPred).length = 0 :=
  ⟨by decide, by decide, by decide⟩

/-- Claim C8 (amended): for every nonempty chunk list `validate_chunks`
returns a statistics dictionary whose `overall_quality` is `"good"` iff there
are zero oversized chunks (estimated tokens above `chunk_size * 1.2 = 1200`)
and zero broken-sentence chunks, where a chunk is broken iff its text is
nonempty and its whitespace-stripped text does not end in `.`, `!` or `?`
(the newline alternative of the `endswith` tuple in the source is unreachable,
because stripping removes trailing newlines first); `validate_chunks []`
returns the explicit no-chunks error dictionary. -/
theorem C8_theorem (chunks : List ChunkDict) (h : chunks ≠ []) :
    (∃ s, validate_chunks chunks = ChunkValidationOut.stats s ∧
      (s.overall_quality = "good".toList ↔
        (chunks.filter oversizedPred).length = 0 ∧
        (chunks.filter brokenSentencePred).length = 0)) ∧
    validate_chunks [] =
      ChunkValidationOut.error ("No chunks to validate".toList) := by
  refine ⟨?_, by rfl⟩
  rw [validate_chunks, if_neg h]
  refine ⟨_, rfl, ?_⟩
  by_cases hcond : (chunks.filter oversizedPred).length = 0 ∧
      (chunks.filter brokenSentencePred).length = 0
  · simp only [if_pos hcond]
    exact ⟨fun _ => hcond, fun _ => trivial⟩
  · simp only [if_neg hcond]
    exact ⟨fun hgood => absurd hgood (by decide), fun hc => absurd hc hcond⟩

/-- Claim C8, witnessed at a concrete input. -/
theorem C8_witness :
    (∃ s, validate_chunks [goodFixture, brokenFixture] =
        ChunkValidationOut.stats s ∧
      (s.overall_quality = "good".toList ↔
        ([goodFixture, brokenFixture].filter oversizedPred).length = 0 ∧
        ([goodFixture, brokenFixture].filter brokenSentencePred).length = 0)) ∧
    validate_chunks [] =
      ChunkValidationOut.error ("No chunks to validate".toList) :=
  C8_theorem [goodFixture, brokenFixture] (by decide)

/-- Claim C2 (divergence exhibit): for every upload whose content is empty or
whitespace-only the result is `success = false` with the no-chunks error
message — but the document record stored under the fresh `doc_id` *before*
chunking is still present in the documents table of the orchestrator afterwards,
contradicting the claimed atomicity. -/
theorem C2_theorem (st : OrchestratorState)
    (content source title doc_type doc_id : Str) (now : ℚ)
    (embedOutcome : ExtCall (List EmbedVec)) (upsertOutcome : ExtCall Bool)
    (h : pyStrip content = []) :
    (upload_document st content source title doc_type doc_id now embedOutcome
        upsertOutcome).1.success = false ∧
    (upload_document st content source title doc_type doc_id now embedOutcome
        upsertOutcome).1.error =
      some ("Failed to create chunks from document".toList) ∧
    ((upload_document st content source title doc_type doc_id now embedOutcome
        upsertOutcome).2.documents.lookup doc_id).isSome = true := by
  have hch : chunk_document content source title doc_id = Except.ok [] := by
    rw [chunk_document, if_pos (Or.inr h)]
  refine ⟨?_, ?_, ?_⟩ <;> simp [upload_document, hch, lookup_dictSet]

/-- Claim C2, witnessed at the empty upload on the empty state. -/
theorem C2_witness :
    pyStrip ([] : Str) = [] ∧
    ((upload_document ⟨[], []⟩ [] ("s".toList) [] ("text".toList) ("d1".toList) 0
        (ExtCall.ok []) (ExtCall.ok true)).1.success = false ∧
      (upload_document ⟨[], []⟩ [] ("s".toList) [] ("text".toList) ("d1".toList) 0
        (ExtCall.ok []) (ExtCall.ok true)).1.error =
        some ("Failed to create chunks from document".toList) ∧
      ((upload_document ⟨[], []⟩ [] ("s".toList) [] ("text".toList) ("d1".toList) 0
        (ExtCall.ok []) (ExtCall.ok true)).2.documents.lookup ("d1".toList)).isSome =
        true) :=
  ⟨by decide, C2_theorem ⟨[], []⟩ [] ("s".toList) [] ("text".toList) ("d1".toList) 0
    (ExtCall.ok []) (ExtCall.ok true) (by decide)⟩

/-- Claim C6: querying a `document_id` that is not in the documents table
returns the structured `{success := false, error := "Document not found"}`
result (never an unhandled fault), and querying a known document whose vector
search returns zero candidates short-circuits to `success = true` with the
canned no-relevant-information answer and an empty citation list. -/
theorem C6_theorem :
    (∀ (st : OrchestratorState) (document_id question : Str) (top_k : Int)
        (provider : Str) (embedOutcome : ExtCall EmbedVec)
        (searchOutcome : ExtCall (List DocDict)) (remote : RemoteOutcome)
        (genOutcome : ExtCall Str) (t0 t1 : ℚ),
      st.documents.lookup document_id = none →
      query_document st document_id question top_k provider embedOutcome
          searchOutcome remote genOutcome t0 t1 =
        { success := false, error := some ("Document not found".toList) }) ∧
    (∀ (st : OrchestratorState) (document_id question : Str) (top_k : Int)
        (provider : Str) (qv : EmbedVec) (remote : RemoteOutcome)
        (genOutcome : ExtCall Str) (t0 t1 : ℚ),
      (st.documents.lookup document_id).isSome = true →
      query_document st document_id question top_k provider (ExtCall.ok qv)
          (ExtCall.ok []) remote genOutcome t0 t1 =
        { success := true
          answer := some noRelevantInfoAnswer
          citations := some ([])
          stats := some
            { response_time := t1 - t0
              estimated_tokens := 0
              estimated_cost := 0 } }) := by
  constructor
  · intro st document_id question top_k provider eo so remote go t0 t1 h
    simp [query_document, h]
  · intro st document_id question top_k provider qv remote go t0 t1 h
    obtain ⟨v, hv⟩ := Option.isSome_iff_exists.mp h
    simp [query_document, hv]

/-- Claim C6, witnessed on a state holding exactly the document `doc1`. -/
theorem C6_witness :
    (stF.documents.lookup ("missing".toList) = none ∧
      query_document stF ("missing".toList) ("q".toList) 10 ("cohere".toList)
          (ExtCall.ok ([] : EmbedVec)) (ExtCall.ok ([] : List DocDict))
          RemoteOutcome.failure (ExtCall.ok ([] : Str)) 0 1 =
        { success := false, error := some ("Document not found".toList) }) ∧
    ((stF.documents.lookup ("doc1".toList)).isSome = true ∧
      query_document stF ("doc1".toList) ("q".toList) 10 ("cohere".toList)
          (ExtCall.ok ([] : EmbedVec)) (ExtCall.ok ([] : List DocDict))
          RemoteOutcome.failure (ExtCall.ok ([] : Str)) 0 1 =
        { success := true
          answer := some noRelevantInfoAnswer
          citations := some ([])
          stats := some
            { response_time := 1 - 0
              estimated_tokens := 0
              estimated_cost := 0 } }) :=
  ⟨⟨by decide, C6_theorem.1 stF ("missing".toList) ("q".toList) 10 ("cohere".toList)
      (ExtCall.ok ([] : EmbedVec)) (ExtCall.ok ([] : List DocDict))
      RemoteOutcome.failure (ExtCall.ok ([] : Str)) 0 1 (by decide)⟩,
    ⟨by decide, C6_theorem.2 stF ("doc1".toList) ("q".toList) 10 ("cohere".toList)
      ([] : EmbedVec) RemoteOutcome.failure (ExtCall.ok ([] : Str)) 0 1 (by decide)⟩⟩

end DocuMind
